import Mathlib

/-!
Verification of the lattice / alignment / manifest subsystem of the
pathologist user-study tiling tool.

The Python sources under `src/tiler/` and `scripts/` are embedded shallowly:

* numeric coordinates are modelled as exact rationals (`ℚ`) — the spec's
  round-trip contract is stated "for any `cell_size > 0` expressible without
  losing precision at the magnitudes used", i.e. over exact arithmetic;
* cell indices and pixel dimensions are integers (`ℤ`), as in the Python
  code where `math.floor` returns `int`;
* the pseudo-random draws of `random.randint` (after `random.seed(42)`) are
  modelled as an explicit stream `rng : ℕ → ℤ × ℤ` giving the pair drawn at
  each loop iteration; every theorem below holds for an arbitrary stream,
  hence in particular for the fixed seed-42 stream;
* the `json` stdlib codec used by `manifest.py` is modelled as a faithful
  store of parsed JSON values keyed by file path (`json.load ∘ json.dump`
  is the identity on JSON-representable documents, per the stdlib contract).
-/

namespace Lattice

/-- `lattice.indexOf`: convert level-0 coordinates to grid cell indices,
`i = floor(x0 / cell_size)`, `j = floor(y0 / cell_size)`. -/
def indexOf (x0 y0 : ℚ) (cell_size : ℚ) : ℤ × ℤ :=
  (⌊x0 / cell_size⌋, ⌊y0 / cell_size⌋)

/-- `lattice.center`: the center coordinates of grid cell `(i, j)`,
`x0 = (i + 0.5) * cell_size`, `y0 = (j + 0.5) * cell_size`. -/
def center (i j : ℤ) (cell_size : ℚ) : ℚ × ℚ :=
  ((i + 1/2) * cell_size, (j + 1/2) * cell_size)

/-- `lattice.is_edge_cell`: `True` iff the cell extends past the slide
boundary, i.e. `(i+1)*cell_size > level0_width or (j+1)*cell_size > level0_height`. -/
def is_edge_cell (i j : ℤ) (level0_width level0_height : ℤ)
    (cell_size : ℚ) : Bool :=
  decide ((level0_width : ℚ) < (i + 1) * cell_size)
    || decide ((level0_height : ℚ) < (j + 1) * cell_size)

/-- `lattice.grid_dimensions`: the number of complete cells in each
dimension, `(floor(width / cell_size), floor(height / cell_size))`. -/
def grid_dimensions (level0_width level0_height : ℤ) (cell_size : ℚ) : ℤ × ℤ :=
  (⌊(level0_width : ℚ) / cell_size⌋, ⌊(level0_height : ℚ) / cell_size⌋)

end Lattice

namespace WsiTiler

/-- The five magnification entries of the map returned by
`wsi_tiler.calculate_magnification_levels` (keys `"40x"`, `"20x"`, `"10x"`,
`"5x"`, `"2.5x"`). -/
structure MagnificationLevels where
  mag40x : ℤ
  mag20x : ℤ
  mag10x : ℤ
  mag5x : ℤ
  mag2_5x : ℤ
  deriving DecidableEq

/-- `wsi_tiler.calculate_magnification_levels`: from the pyramid's
`level_count`, `max_level = level_count - 1` and the map is
`{40x: max_level, 20x: max_level-1, 10x: max_level-2, 5x: max_level-3,
2.5x: max_level-4}`.  The function is total: no validation of
`level_count` is performed. -/
def calculate_magnification_levels (level_count : ℤ) : MagnificationLevels :=
  let max_level := level_count - 1
  { mag40x := max_level
    mag20x := max_level - 1
    mag10x := max_level - 2
    mag5x := max_level - 3
    mag2_5x := max_level - 4 }

end WsiTiler

namespace AlignmentCheck

/-- The random-fill loop of `alignment_check._generate_samples`:
`while len(samples) < num_samples and attempts < max_attempts`, draw a
cell, append it if not already present, and count the attempt.  `fuel` is
the number of attempts still allowed and `t` the index of the current
attempt in the draw stream `rng`. -/
def fillRandom (rng : ℕ → ℤ × ℤ) (num_samples : ℕ) :
    ℕ → ℕ → List (ℤ × ℤ) → List (ℤ × ℤ)
  | 0, _, samples => samples
  | fuel + 1, t, samples =>
    if samples.length < num_samples then
      fillRandom rng num_samples fuel (t + 1)
        (if rng t ∈ samples then samples else samples ++ [rng t])
    else samples

/-- The corner step of `alignment_check._generate_samples`: the four corner
cells when the grid has at least 2×2 complete cells and the sample budget
is at least 5, else just the origin cell (the `max_i >= 1 and max_j >= 1`
guard of the `elif` branch holds wherever this is used, after the
empty-grid early return). -/
def baseSamples (max_i max_j : ℤ) (num_samples : ℕ) : List (ℤ × ℤ) :=
  if 2 ≤ max_i ∧ 2 ≤ max_j ∧ 5 ≤ num_samples then
    [(0, 0), (max_i - 1, 0), (0, max_j - 1), (max_i - 1, max_j - 1)]
  else
    [(0, 0)]

/-- The center step of `alignment_check._generate_samples`: append the
grid-center cell `(max_i // 2, max_j // 2)` (Python floor division) if it
is not already present. -/
def withCenterCell (max_i max_j : ℤ) (samples : List (ℤ × ℤ)) :
    List (ℤ × ℤ) :=
  if (Int.fdiv max_i 2, Int.fdiv max_j 2) ∈ samples then samples
  else samples ++ [(Int.fdiv max_i 2, Int.fdiv max_j 2)]

/-- `alignment_check._generate_samples`: the empty list when the grid has
no complete cells; otherwise corners (or origin), then the center cell if
absent, then pseudo-random cells skipping duplicates with at most
`num_samples * 10` draw attempts, truncated to `num_samples` entries. -/
def generateSamples (max_i max_j : ℤ) (num_samples : ℕ)
    (rng : ℕ → ℤ × ℤ) : List (ℤ × ℤ) :=
  if max_i ≤ 0 ∨ max_j ≤ 0 then
    []
  else
    (fillRandom rng num_samples (num_samples * 10) 0
      (withCenterCell max_i max_j (baseSamples max_i max_j num_samples))).take
      num_samples

/-- `alignment_check.check_alignment` (verdict component): at level-0 the
cell size equals `patch_px`; every sampled cell must satisfy
`indexOf(center(i, j)) == (i, j)`.  The human-readable report string the
Python function also returns carries no extra information for the verdict
and is not modelled. -/
def check_alignment (level0_width level0_height : ℤ) (patch_px : ℤ)
    (num_samples : ℕ) (rng : ℕ → ℤ × ℤ) : Bool :=
  let cell_size : ℚ := (patch_px : ℚ)
  let dims := Lattice.grid_dimensions level0_width level0_height cell_size
  let samples := generateSamples dims.1 dims.2 num_samples rng
  samples.all fun p =>
    Lattice.indexOf (Lattice.center p.1 p.2 cell_size).1
      (Lattice.center p.1 p.2 cell_size).2 cell_size == (p.1, p.2)

end AlignmentCheck

namespace Manifest

/-- JSON-representable Python values, as produced by `manifest.py` and
serialized by the stdlib `json` module (`None ↦ null`). -/
inductive JVal where
  | null : JVal
  | bool : Bool → JVal
  | int : ℤ → JVal
  | num : ℚ → JVal
  | str : String → JVal
  | arr : List JVal → JVal
  | obj : List (String × JVal) → JVal

/-- `manifest.create_manifest`: the ordered dictionary of manifest fields.
`mpp0 = None` becomes an explicit JSON `null`; `overlap` is fixed at `0`
and `anchor` at `[0, 0]`.  The wall-clock timestamp
`datetime.now(timezone.utc).isoformat()` is passed in as `created_at`. -/
def create_manifest (slide_id : String) (level0_width level0_height : ℤ)
    (mpp0 : Option ℚ) (patch_px tile_size : ℤ) (alignment_ok : Bool)
    (created_at : String) : List (String × JVal) :=
  [("slide_id", JVal.str slide_id),
   ("level0_width", JVal.int level0_width),
   ("level0_height", JVal.int level0_height),
   ("mpp0", match mpp0 with
            | none => JVal.null
            | some v => JVal.num v),
   ("patch_px", JVal.int patch_px),
   ("tile_size", JVal.int tile_size),
   ("overlap", JVal.int 0),
   ("anchor", JVal.arr [JVal.int 0, JVal.int 0]),
   ("alignment_ok", JVal.bool alignment_ok),
   ("created_at", JVal.str created_at)]

/-- The file system as a map from paths to the parsed JSON value stored
there (the `json` codec being faithful, file contents are modelled at the
value level). -/
def FileStore : Type := String → Option JVal

/-- `manifest.save_manifest`: writes `json.dump(manifest)` to
`output_dir / "manifest.json"`, overwriting whatever was there. -/
def save_manifest (manifest : List (String × JVal)) (output_dir : String)
    (fs : FileStore) : FileStore :=
  fun path =>
    if path = output_dir ++ "/manifest.json" then some (JVal.obj manifest)
    else fs path

/-- `manifest.load_manifest`: `json.load` of the file at `manifest_path`;
returns the parsed dictionary, or fails (`none`) when the file is absent
or does not hold a JSON object. -/
def load_manifest (fs : FileStore) (manifest_path : String) :
    Option (List (String × JVal)) :=
  match fs manifest_path with
  | some (JVal.obj kvs) => some kvs
  | _ => none

end Manifest

namespace VerifyAlignment

/-- `scripts/verify-alignment.py` `cell_size_for_zoom`:
`cell_size = patch_px * (40 / zoom_level)` in level-0 coordinates. -/
def cell_size_for_zoom (zoom_level patch_px : ℚ) : ℚ :=
  patch_px * (40 / zoom_level)

end VerifyAlignment

namespace Lattice

/-- Helper: in exact arithmetic, `⌊((k + 1/2) * s) / s⌋ = k` for any `s ≠ 0`. -/
theorem floor_half_cell (k : ℤ) (s : ℚ) (hs : s ≠ 0) :
    ⌊((k : ℚ) + 1/2) * s / s⌋ = k := by
  rw [mul_div_cancel_right₀ _ hs]
  have h : ((k : ℚ) + 1/2) = 1/2 + (k : ℤ) := by ring
  rw [h, Int.floor_add_int]
  norm_num

end Lattice

/-- C1. Round-trip law: for all integers `i, j ≥ 0` and every `cell_size s`
with `64 ≤ s ≤ 8192`, `indexOf (center i j s) s = (i, j)` exactly, where
`center i j s = ((i+0.5)*s, (j+0.5)*s)` and `indexOf x y s = (⌊x/s⌋, ⌊y/s⌋)`. -/
theorem indexOf_center_roundtrip (i j : ℤ) (s : ℚ)
    (hi : 0 ≤ i) (hj : 0 ≤ j) (hlo : 64 ≤ s) (hhi : s ≤ 8192) :
    Lattice.indexOf (Lattice.center i j s).1 (Lattice.center i j s).2 s = (i, j) := by
  have hs : s ≠ 0 := by positivity
  simp only [Lattice.indexOf, Lattice.center]
  rw [Lattice.floor_half_cell i s hs, Lattice.floor_half_cell j s hs]

/-- Witness for C1 at `i = 3`, `j = 5`, `s = 256`. -/
theorem indexOf_center_roundtrip_witness :
    Lattice.indexOf (Lattice.center 3 5 256).1 (Lattice.center 3 5 256).2 256 = (3, 5) :=
  indexOf_center_roundtrip 3 5 256 (by norm_num) (by norm_num) (by norm_num) (by norm_num)

/-- C3. Magnification-to-level map: for every pyramid level count `N` the
mapper returns exactly `{40x: N-1, 20x: N-2, 10x: N-3, 5x: N-4, 2.5x: N-5}`;
in particular for `N = 18` it returns `{40x:17, 20x:16, 10x:15, 5x:14, 2.5x:13}`. -/
theorem calculate_magnification_levels_spec :
    (∀ N : ℤ, WsiTiler.calculate_magnification_levels N =
      { mag40x := N - 1, mag20x := N - 2, mag10x := N - 3,
        mag5x := N - 4, mag2_5x := N - 5 }) ∧
    WsiTiler.calculate_magnification_levels 18 =
      { mag40x := 17, mag20x := 16, mag10x := 15, mag5x := 14, mag2_5x := 13 } := by
  constructor
  · intro N
    simp only [WsiTiler.calculate_magnification_levels,
      WsiTiler.MagnificationLevels.mk.injEq, true_and, and_true]
    omega
  · decide

/-- C4. Magnification-mapping underflow: for every level count `N < 5` the
mapper (a total function — it raises no error) returns the same formulaic
map, so the emitted `2.5x` entry `N - 5` is negative. -/
theorem calculate_magnification_levels_underflow (N : ℤ) (h : N < 5) :
    WsiTiler.calculate_magnification_levels N =
      { mag40x := N - 1, mag20x := N - 2, mag10x := N - 3,
        mag5x := N - 4, mag2_5x := N - 5 } ∧
    (WsiTiler.calculate_magnification_levels N).mag2_5x < 0 := by
  constructor
  · simp only [WsiTiler.calculate_magnification_levels,
      WsiTiler.MagnificationLevels.mk.injEq, true_and, and_true]
    omega
  · simp only [WsiTiler.calculate_magnification_levels]
    omega

/-- Witness for C4 at `N = 3`. -/
theorem calculate_magnification_levels_underflow_witness :
    WsiTiler.calculate_magnification_levels 3 =
      { mag40x := 2, mag20x := 1, mag10x := 0, mag5x := -1, mag2_5x := -2 } ∧
    (WsiTiler.calculate_magnification_levels 3).mag2_5x < 0 :=
  calculate_magnification_levels_underflow 3 (by norm_num)

/-- C9. Grid monotonicity: for fixed `patch_px > 0` and zoom levels
`Z1, Z2 ∈ {2.5, 5, 10, 20, 40}`, if `Z1 > Z2` then
`cell_size_for_zoom Z1 patch_px < cell_size_for_zoom Z2 patch_px`, where
`cell_size_for_zoom Z p = p * (40 / Z)`. -/
theorem cell_size_for_zoom_strict_anti (Z1 Z2 patch_px : ℚ)
    (h1 : Z1 ∈ [(2.5 : ℚ), 5, 10, 20, 40]) (h2 : Z2 ∈ [(2.5 : ℚ), 5, 10, 20, 40])
    (hlt : Z2 < Z1) (hp : 0 < patch_px) :
    VerifyAlignment.cell_size_for_zoom Z1 patch_px <
      VerifyAlignment.cell_size_for_zoom Z2 patch_px := by
  have hZ2 : 0 < Z2 := by fin_cases h2 <;> norm_num
  have hdiv : 40 / Z1 < 40 / Z2 :=
    div_lt_div_of_pos_left (by norm_num) hZ2 hlt
  simpa only [VerifyAlignment.cell_size_for_zoom] using
    mul_lt_mul_of_pos_left hdiv hp

/-- Witness for C9 at `Z1 = 40`, `Z2 = 20`, `patch_px = 256`. -/
theorem cell_size_for_zoom_strict_anti_witness :
    VerifyAlignment.cell_size_for_zoom 40 256 <
      VerifyAlignment.cell_size_for_zoom 20 256 :=
  cell_size_for_zoom_strict_anti 40 20 256 (by norm_num) (by norm_num)
    (by norm_num) (by norm_num)

/-- C10. Complete cells are never edge cells: if `0 ≤ i < num_cols` and
`0 ≤ j < num_rows` where `(num_cols, num_rows) = grid_dimensions w h s`
with `w, h ≥ 0` and `s > 0`, then `is_edge_cell i j w h s = false`
(in exact arithmetic `i < ⌊w/s⌋` implies `(i+1)*s ≤ w`, likewise for `j`). -/
theorem complete_cells_not_edge (i j w h : ℤ) (s : ℚ)
    (hw : 0 ≤ w) (hh : 0 ≤ h) (hs : 0 < s) (hi0 : 0 ≤ i) (hj0 : 0 ≤ j)
    (hi : i < (Lattice.grid_dimensions w h s).1)
    (hj : j < (Lattice.grid_dimensions w h s).2) :
    Lattice.is_edge_cell i j w h s = false := by
  simp only [Lattice.grid_dimensions] at hi hj
  have hx : ((i : ℚ) + 1) * s ≤ w := by
    have h1 : (i + 1 : ℤ) ≤ ⌊(w : ℚ) / s⌋ := hi
    have h2 : ((i + 1 : ℤ) : ℚ) ≤ (w : ℚ) / s := Int.le_floor.mp h1
    rw [le_div_iff₀ hs] at h2
    push_cast at h2
    exact h2
  have hy : ((j : ℚ) + 1) * s ≤ h := by
    have h1 : (j + 1 : ℤ) ≤ ⌊(h : ℚ) / s⌋ := hj
    have h2 : ((j + 1 : ℤ) : ℚ) ≤ (h : ℚ) / s := Int.le_floor.mp h1
    rw [le_div_iff₀ hs] at h2
    push_cast at h2
    exact h2
  simp only [Lattice.is_edge_cell, Bool.or_eq_false_iff,
    decide_eq_false_iff_not, not_lt]
  exact ⟨hx, hy⟩

/-- Witness for C10 at `i = 3`, `j = 2`, `w = 10000`, `h = 8000`, `s = 256`. -/
theorem complete_cells_not_edge_witness :
    Lattice.is_edge_cell 3 2 10000 8000 256 = false :=
  complete_cells_not_edge 3 2 10000 8000 256 (by norm_num) (by norm_num)
    (by norm_num) (by norm_num) (by norm_num)
    (by norm_num [Lattice.grid_dimensions])
    (by norm_num [Lattice.grid_dimensions])

/-- C2. Verifier verdict: `check_alignment` works at `cell_size = patch_px`
(no scaling at native 40×) and its verdict is `true` if and only if every
cell `(i, j)` of its sample set satisfies
`indexOf (center i j cell_size) cell_size = (i, j)`. -/
theorem check_alignment_iff_roundtrip (level0_width level0_height patch_px : ℤ)
    (num_samples : ℕ) (rng : ℕ → ℤ × ℤ) :
    AlignmentCheck.check_alignment level0_width level0_height patch_px
        num_samples rng = true ↔
      ∀ p ∈ AlignmentCheck.generateSamples
          (Lattice.grid_dimensions level0_width level0_height (patch_px : ℚ)).1
          (Lattice.grid_dimensions level0_width level0_height (patch_px : ℚ)).2
          num_samples rng,
        Lattice.indexOf (Lattice.center p.1 p.2 (patch_px : ℚ)).1
          (Lattice.center p.1 p.2 (patch_px : ℚ)).2 (patch_px : ℚ) = (p.1, p.2) := by
  simp only [AlignmentCheck.check_alignment, List.all_eq_true, beq_iff_eq]

/-- C5. Degenerate-grid vacuous pass: whenever `grid_dimensions` is zero in
either dimension, the verifier's sample set is empty and `check_alignment`
returns `true`. -/
theorem degenerate_grid_vacuous_pass (level0_width level0_height patch_px : ℤ)
    (num_samples : ℕ) (rng : ℕ → ℤ × ℤ)
    (hdeg : (Lattice.grid_dimensions level0_width level0_height (patch_px : ℚ)).1 = 0 ∨
            (Lattice.grid_dimensions level0_width level0_height (patch_px : ℚ)).2 = 0) :
    AlignmentCheck.generateSamples
        (Lattice.grid_dimensions level0_width level0_height (patch_px : ℚ)).1
        (Lattice.grid_dimensions level0_width level0_height (patch_px : ℚ)).2
        num_samples rng = [] ∧
    AlignmentCheck.check_alignment level0_width level0_height patch_px
        num_samples rng = true := by
  have hempty : AlignmentCheck.generateSamples
      (Lattice.grid_dimensions level0_width level0_height (patch_px : ℚ)).1
      (Lattice.grid_dimensions level0_width level0_height (patch_px : ℚ)).2
      num_samples rng = [] := by
    rw [AlignmentCheck.generateSamples, if_pos]
    rcases hdeg with h | h
    · exact Or.inl (le_of_eq h)
    · exact Or.inr (le_of_eq h)
  refine ⟨hempty, ?_⟩
  simp only [AlignmentCheck.check_alignment, hempty, List.all_nil]

/-- Witness for C5 at `level0_width = 100 < patch_px = 256` (so the grid has
zero complete columns). -/
theorem degenerate_grid_vacuous_pass_witness :
    AlignmentCheck.generateSamples
        (Lattice.grid_dimensions 100 8000 ((256 : ℤ) : ℚ)).1
        (Lattice.grid_dimensions 100 8000 ((256 : ℤ) : ℚ)).2
        10 (fun _ => (0, 0)) = [] ∧
    AlignmentCheck.check_alignment 100 8000 256 10 (fun _ => (0, 0)) = true :=
  degenerate_grid_vacuous_pass 100 8000 256 10 (fun _ => (0, 0))
    (Or.inl (by norm_num [Lattice.grid_dimensions]))

namespace AlignmentCheck

/-- The random-fill loop only ever appends: its result extends the initial
sample list. -/
theorem fillRandom_append (rng : ℕ → ℤ × ℤ) (n : ℕ) :
    ∀ (fuel t : ℕ) (samples : List (ℤ × ℤ)),
      ∃ u, fillRandom rng n fuel t samples = samples ++ u := by
  intro fuel
  induction fuel with
  | zero => exact fun t samples => ⟨[], by simp [fillRandom]⟩
  | succ fuel ih =>
    intro t samples
    rw [fillRandom]
    by_cases hlen : samples.length < n
    · rw [if_pos hlen]
      by_cases hmem : rng t ∈ samples
      · rw [if_pos hmem]
        exact ih (t + 1) samples
      · rw [if_neg hmem]
        obtain ⟨u, hu⟩ := ih (t + 1) (samples ++ [rng t])
        exact ⟨[rng t] ++ u, by rw [hu, List.append_assoc]⟩
    · rw [if_neg hlen]
      exact ⟨[], by simp⟩

/-- The random-fill loop skips duplicates, so it preserves `Nodup`. -/
theorem fillRandom_nodup (rng : ℕ → ℤ × ℤ) (n : ℕ) :
    ∀ (fuel t : ℕ) (samples : List (ℤ × ℤ)),
      samples.Nodup → (fillRandom rng n fuel t samples).Nodup := by
  intro fuel
  induction fuel with
  | zero => exact fun t samples h => by rw [fillRandom]; exact h
  | succ fuel ih =>
    intro t samples h
    rw [fillRandom]
    by_cases hlen : samples.length < n
    · rw [if_pos hlen]
      by_cases hmem : rng t ∈ samples
      · rw [if_pos hmem]; exact ih (t + 1) samples h
      · rw [if_neg hmem]
        refine ih (t + 1) _ ?_
        rw [List.nodup_append]
        exact ⟨h, List.nodup_singleton _, List.disjoint_singleton.mpr hmem⟩
    · rw [if_neg hlen]; exact h

/-- The corner step never repeats a cell. -/
theorem baseSamples_nodup (max_i max_j : ℤ) (n : ℕ) :
    (baseSamples max_i max_j n).Nodup := by
  rw [baseSamples]
  split
  · next hcond =>
    obtain ⟨h1, h2, -⟩ := hcond
    simp only [List.nodup_cons, List.mem_cons, List.mem_singleton,
      List.not_mem_nil, Prod.mk.injEq, List.nodup_nil, and_true, true_and,
      not_or, not_false_eq_true, not_and]
    omega
  · simp

/-- The center step preserves `Nodup`. -/
theorem withCenterCell_nodup (max_i max_j : ℤ) (samples : List (ℤ × ℤ))
    (h : samples.Nodup) : (withCenterCell max_i max_j samples).Nodup := by
  rw [withCenterCell]
  split
  · exact h
  · next hmem =>
    rw [List.nodup_append]
    exact ⟨h, List.nodup_singleton _, List.disjoint_singleton.mpr hmem⟩

/-- The center step is an append of the center cell or of nothing. -/
theorem withCenterCell_eq_append (max_i max_j : ℤ) (samples : List (ℤ × ℤ)) :
    withCenterCell max_i max_j samples =
      samples ++
        (if (Int.fdiv max_i 2, Int.fdiv max_j 2) ∈ samples then []
         else [(Int.fdiv max_i 2, Int.fdiv max_j 2)]) := by
  rw [withCenterCell]
  split
  · exact (List.append_nil _).symm
  · rfl

end AlignmentCheck

/-- C6. Sample-set construction: for every `max_i`, `max_j`, `num_samples`
and draw stream, the sample set (a function of its arguments, hence
deterministic for the fixed seed-42 stream) has at most `num_samples`
entries, contains no duplicate cell, is empty when the grid has no
complete cells, begins with the four corner cells followed by the center
cell `(max_i // 2, max_j // 2)` when it is not a corner, provided
`max_i ≥ 2`, `max_j ≥ 2` and `num_samples ≥ 5`, and otherwise (cells
existing, budget ≥ 1) begins with the origin cell. -/
theorem generateSamples_spec (max_i max_j : ℤ) (num_samples : ℕ)
    (rng : ℕ → ℤ × ℤ) :
    (AlignmentCheck.generateSamples max_i max_j num_samples rng).length ≤ num_samples ∧
    (AlignmentCheck.generateSamples max_i max_j num_samples rng).Nodup ∧
    (max_i ≤ 0 ∨ max_j ≤ 0 →
      AlignmentCheck.generateSamples max_i max_j num_samples rng = []) ∧
    (2 ≤ max_i → 2 ≤ max_j → 5 ≤ num_samples →
      ∃ rest, AlignmentCheck.generateSamples max_i max_j num_samples rng =
        ([(0, 0), (max_i - 1, 0), (0, max_j - 1), (max_i - 1, max_j - 1)] ++
          (if (Int.fdiv max_i 2, Int.fdiv max_j 2) ∈
              ([(0, 0), (max_i - 1, 0), (0, max_j - 1), (max_i - 1, max_j - 1)] :
                List (ℤ × ℤ)) then []
           else [(Int.fdiv max_i 2, Int.fdiv max_j 2)])) ++ rest) ∧
    (0 < max_i → 0 < max_j → ¬(2 ≤ max_i ∧ 2 ≤ max_j ∧ 5 ≤ num_samples) →
      1 ≤ num_samples →
      ∃ rest, AlignmentCheck.generateSamples max_i max_j num_samples rng =
        (0, 0) :: rest) := by
  refine ⟨?_, ?_, ?_, ?_, ?_⟩
  · rw [AlignmentCheck.generateSamples]
    split
    · simp
    · exact List.length_take_le _ _
  · rw [AlignmentCheck.generateSamples]
    split
    · simp
    · exact ((List.take_sublist _ _).nodup
        (AlignmentCheck.fillRandom_nodup rng num_samples _ 0 _
          (AlignmentCheck.withCenterCell_nodup _ _ _
            (AlignmentCheck.baseSamples_nodup _ _ _))))
  · intro hdeg
    rw [AlignmentCheck.generateSamples, if_pos hdeg]
  · intro h2i h2j h5n
    have hne : ¬(max_i ≤ 0 ∨ max_j ≤ 0) := by omega
    rw [AlignmentCheck.generateSamples, if_neg hne,
      AlignmentCheck.baseSamples, if_pos ⟨h2i, h2j, h5n⟩]
    obtain ⟨u, hu⟩ := AlignmentCheck.fillRandom_append rng num_samples
      (num_samples * 10) 0
      (AlignmentCheck.withCenterCell max_i max_j
        [(0, 0), (max_i - 1, 0), (0, max_j - 1), (max_i - 1, max_j - 1)])
    rw [hu, AlignmentCheck.withCenterCell_eq_append]
    rw [List.append_assoc, ← List.append_assoc]
    set pre := [((0 : ℤ), (0 : ℤ)), (max_i - 1, 0), (0, max_j - 1),
      (max_i - 1, max_j - 1)] ++
      (if (Int.fdiv max_i 2, Int.fdiv max_j 2) ∈
          ([(0, 0), (max_i - 1, 0), (0, max_j - 1), (max_i - 1, max_j - 1)] :
            List (ℤ × ℤ)) then []
       else [(Int.fdiv max_i 2, Int.fdiv max_j 2)]) with hpre
    have hlen : pre.length ≤ num_samples := by
      rw [hpre, List.length_append]
      have : (if (Int.fdiv max_i 2, Int.fdiv max_j 2) ∈
          ([(0, 0), (max_i - 1, 0), (0, max_j - 1), (max_i - 1, max_j - 1)] :
            List (ℤ × ℤ)) then ([] : List (ℤ × ℤ))
         else [(Int.fdiv max_i 2, Int.fdiv max_j 2)]).length ≤ 1 := by
        split <;> simp
      simp only [List.length_cons, List.length_nil] at *
      omega
    refine ⟨u.take (num_samples - pre.length), ?_⟩
    rw [List.take_append_eq_append_take, List.take_of_length_le hlen]
  · intro hpi hpj hnc h1n
    have hne : ¬(max_i ≤ 0 ∨ max_j ≤ 0) := by omega
    rw [AlignmentCheck.generateSamples, if_neg hne,
      AlignmentCheck.baseSamples, if_neg hnc]
    obtain ⟨u, hu⟩ := AlignmentCheck.fillRandom_append rng num_samples
      (num_samples * 10) 0
      (AlignmentCheck.withCenterCell max_i max_j [(0, 0)])
    rw [hu, AlignmentCheck.withCenterCell_eq_append]
    obtain ⟨m, rfl⟩ : ∃ m, num_samples = m + 1 := ⟨num_samples - 1, by omega⟩
    simp only [List.cons_append, List.nil_append, List.take_succ_cons]
    exact ⟨_, rfl⟩

/-- Witness for C6 at `max_i = 5`, `max_j = 4`, `num_samples = 10` and the
constant draw stream. -/
theorem generateSamples_spec_witness :
    (AlignmentCheck.generateSamples 5 4 10 (fun _ => (1, 1))).length ≤ 10 ∧
    (AlignmentCheck.generateSamples 5 4 10 (fun _ => (1, 1))).Nodup ∧
    ((5 : ℤ) ≤ 0 ∨ (4 : ℤ) ≤ 0 →
      AlignmentCheck.generateSamples 5 4 10 (fun _ => (1, 1)) = []) ∧
    ((2 : ℤ) ≤ 5 → (2 : ℤ) ≤ 4 → 5 ≤ 10 →
      ∃ rest, AlignmentCheck.generateSamples 5 4 10 (fun _ => (1, 1)) =
        ([((0 : ℤ), (0 : ℤ)), (5 - 1, 0), (0, 4 - 1), (5 - 1, 4 - 1)] ++
          (if (Int.fdiv 5 2, Int.fdiv 4 2) ∈
              ([(0, 0), (5 - 1, 0), (0, 4 - 1), (5 - 1, 4 - 1)] :
                List (ℤ × ℤ)) then []
           else [(Int.fdiv 5 2, Int.fdiv 4 2)])) ++ rest) ∧
    ((0 : ℤ) < 5 → (0 : ℤ) < 4 → ¬((2 : ℤ) ≤ 5 ∧ (2 : ℤ) ≤ 4 ∧ 5 ≤ 10) →
      1 ≤ 10 →
      ∃ rest, AlignmentCheck.generateSamples 5 4 10 (fun _ => (1, 1)) =
        (0, 0) :: rest) :=
  generateSamples_spec 5 4 10 (fun _ => (1, 1))

/-- C7. Manifest save/load round trip: loading `manifest.json` as written by
`save_manifest` yields the document `create_manifest` produced; when the
document was created with `mpp0 = None`, the serialized object carries the
key `"mpp0"` with value `null` and the loaded document still maps `"mpp0"`
to `null` (not `0.0` and not a missing key). -/
theorem save_load_manifest_roundtrip (slide_id : String)
    (level0_width level0_height : ℤ) (mpp0 : Option ℚ)
    (patch_px tile_size : ℤ) (alignment_ok : Bool)
    (created_at output_dir : String) (fs : Manifest.FileStore) :
    Manifest.load_manifest
        (Manifest.save_manifest
          (Manifest.create_manifest slide_id level0_width level0_height mpp0
            patch_px tile_size alignment_ok created_at) output_dir fs)
        (output_dir ++ "/manifest.json") =
      some (Manifest.create_manifest slide_id level0_width level0_height mpp0
        patch_px tile_size alignment_ok created_at) ∧
    (mpp0 = none →
      (Manifest.create_manifest slide_id level0_width level0_height mpp0
          patch_px tile_size alignment_ok created_at).lookup "mpp0" =
        some Manifest.JVal.null) := by
  constructor
  · simp [Manifest.load_manifest, Manifest.save_manifest]
  · rintro rfl
    simp [Manifest.create_manifest, List.lookup]

/-- Witness for C7 with `mpp0 = none` and concrete arguments. -/
theorem save_load_manifest_roundtrip_witness :
    Manifest.load_manifest
        (Manifest.save_manifest
          (Manifest.create_manifest "slide" 100 80 none 256 512 true "t")
          "out" (fun _ => none))
        ("out" ++ "/manifest.json") =
      some (Manifest.create_manifest "slide" 100 80 none 256 512 true "t") ∧
    ((none : Option ℚ) = none →
      (Manifest.create_manifest "slide" 100 80 none 256 512 true "t").lookup
          "mpp0" =
        some Manifest.JVal.null) :=
  save_load_manifest_roundtrip "slide" 100 80 none 256 512 true "t" "out"
    (fun _ => none)

/-- C8. Manifest constructor postcondition: the document built by
`create_manifest` always has `overlap = 0` and `anchor = [0, 0]`, always
contains the key `"mpp0"` (as `null` when the argument is `None`, else the
numeric value), and echoes `slide_id`, `level0_width`, `level0_height`,
`patch_px`, `tile_size` and `alignment_ok` unchanged. -/
theorem create_manifest_postcondition (slide_id : String)
    (level0_width level0_height : ℤ) (mpp0 : Option ℚ)
    (patch_px tile_size : ℤ) (alignment_ok : Bool) (created_at : String) :
    (Manifest.create_manifest slide_id level0_width level0_height mpp0
        patch_px tile_size alignment_ok created_at).lookup "overlap" =
      some (Manifest.JVal.int 0) ∧
    (Manifest.create_manifest slide_id level0_width level0_height mpp0
        patch_px tile_size alignment_ok created_at).lookup "anchor" =
      some (Manifest.JVal.arr [Manifest.JVal.int 0, Manifest.JVal.int 0]) ∧
    (Manifest.create_manifest slide_id level0_width level0_height mpp0
        patch_px tile_size alignment_ok created_at).lookup "mpp0" =
      some (match mpp0 with
            | none => Manifest.JVal.null
            | some v => Manifest.JVal.num v) ∧
    (Manifest.create_manifest slide_id level0_width level0_height mpp0
        patch_px tile_size alignment_ok created_at).lookup "slide_id" =
      some (Manifest.JVal.str slide_id) ∧
    (Manifest.create_manifest slide_id level0_width level0_height mpp0
        patch_px tile_size alignment_ok created_at).lookup "level0_width" =
      some (Manifest.JVal.int level0_width) ∧
    (Manifest.create_manifest slide_id level0_width level0_height mpp0
        patch_px tile_size alignment_ok created_at).lookup "level0_height" =
      some (Manifest.JVal.int level0_height) ∧
    (Manifest.create_manifest slide_id level0_width level0_height mpp0
        patch_px tile_size alignment_ok created_at).lookup "patch_px" =
      some (Manifest.JVal.int patch_px) ∧
    (Manifest.create_manifest slide_id level0_width level0_height mpp0
        patch_px tile_size alignment_ok created_at).lookup "tile_size" =
      some (Manifest.JVal.int tile_size) ∧
    (Manifest.create_manifest slide_id level0_width level0_height mpp0
        patch_px tile_size alignment_ok created_at).lookup "alignment_ok" =
      some (Manifest.JVal.bool alignment_ok) := by
  cases mpp0 <;>
    exact ⟨rfl, rfl, rfl, rfl, rfl, rfl, rfl, rfl, rfl⟩

section DimensionExamples

/- Concrete checks of the dimension, center and edge-cell examples stated
in the specification. -/

example : Lattice.grid_dimensions 10000 8000 256 = (39, 31) := by
  norm_num [Lattice.grid_dimensions]

example : Lattice.center 2 3 256 = (640, 896) := by norm_num [Lattice.center]

example : Lattice.is_edge_cell 39 31 10000 8000 256 = true := by
  norm_num [Lattice.is_edge_cell]

example : Lattice.is_edge_cell 0 0 10000 8000 256 = false := by
  norm_num [Lattice.is_edge_cell]

example : Lattice.indexOf 512.5 768.3 256 = (2, 3) := by
  norm_num [Lattice.indexOf]

end DimensionExamples
